import Mathlib

/-!
Verification of the AnALiST Flask application (`src/app.py`).

The application is embedded shallowly: each route handler becomes a pure
Lean function from the session state and the request data to the new
session state and the HTTP response.  Python strings are modelled as
lists of characters; the ASCII fragment of the Python builtins
`str.strip`, `str.upper`, `str.isalpha` and `int(...)` that the form
inputs exercise is modelled explicitly.  The external OpenAI call is a
parameter of type `Str → Except Unit Str`: it maps the user prompt to
either the returned message content or an exception.
-/

namespace AnalystApp

/-- Python strings, modelled as lists of characters. -/
abbrev Str := List Char

/-- The whitespace characters removed by Python `str.strip()` (ASCII fragment). -/
def isPySpace (c : Char) : Bool :=
  c = ' ' || c = '\t' || c = '\n' || c = '\r' || c = '\x0b' || c = '\x0c'

/-- Python `str.strip()`: drop leading and trailing whitespace. -/
def pyStrip (s : Str) : Str :=
  ((s.dropWhile isPySpace).reverse.dropWhile isPySpace).reverse

/-- Python `str.upper()` (ASCII fragment): map each character to upper case. -/
def pyUpper (s : Str) : Str :=
  s.map Char.toUpper

/-- Python `str.isalpha()` (ASCII fragment): nonempty and all alphabetic. -/
def pyIsAlpha (s : Str) : Bool :=
  !s.isEmpty && s.all Char.isAlpha

/-- Digit runs accepted by Python `int()` after the first digit:
digits, with single underscores allowed only between digits. -/
def pyDigitsRest : List Char → Bool
  | [] => true
  | '_' :: c :: rest => c.isDigit && pyDigitsRest rest
  | '_' :: [] => false
  | c :: rest => c.isDigit && pyDigitsRest rest

/-- Digit runs accepted by Python `int()`: at least one digit first. -/
def pyDigitsOk : List Char → Bool
  | [] => false
  | c :: rest => c.isDigit && pyDigitsRest rest

/-- Numeric value of a digit run, ignoring the underscore separators. -/
def digitsVal (cs : List Char) : Nat :=
  cs.foldl (fun acc c => if c = '_' then acc else acc * 10 + (c.toNat - 48)) 0

/-- Python `int(s)` (ASCII decimal fragment): strips whitespace, accepts an
optional sign followed by digits (with underscore separators), and fails
with `ValueError` (here `none`) on anything else. -/
def pyInt (s : Str) : Option Int :=
  match pyStrip s with
  | '+' :: rest => if pyDigitsOk rest then some (digitsVal rest) else none
  | '-' :: rest => if pyDigitsOk rest then some (-(digitsVal rest : Int)) else none
  | cs => if pyDigitsOk cs then some (digitsVal cs) else none

/-- The Flask session: a mapping from keys to values.  The application
only ever stores the boolean `logged_in`, so values are booleans. -/
abbrev Session := List (String × Bool)

/-- `session.get(k)`: the value stored under `k`, if any. -/
def sessionGet (s : Session) (k : String) : Option Bool :=
  (s.find? (fun p => p.1 == k)).map (fun p => p.2)

/-- `session[k] = v`: store `v` under `k`. -/
def sessionSet (s : Session) (k : String) (v : Bool) : Session :=
  (k, v) :: s.filter (fun p => !(p.1 == k))

/-- `session.clear()`: remove every key from the session. -/
def sessionClear (_ : Session) : Session := []

/-- Truthiness of `session.get("logged_in")`: `None` and `False` are
falsy, `True` is truthy. -/
def isLoggedIn (s : Session) : Bool :=
  (sessionGet s "logged_in").getD false

/-- The responses the application can produce: a redirect to a route
endpoint, or one of the three rendered templates with the context values
each `render_template` call passes. -/
inductive Response where
  | redirect (endpoint : String)
  | renderLogin
  | renderIndex (error : Option Str) (ticker : Str)
  | renderResult (ticker : Str) (days : Int) (prediction : Str)
  deriving DecidableEq, Repr

/-- HTTP request methods relevant to the app. -/
inductive Method where
  | GET
  | POST
  deriving DecidableEq, Repr

/-- The environment configuration read at startup: whether the `openai`
library imported successfully, and the `OPENAI_API_KEY` variable. -/
structure Env where
  openaiAvailable : Bool
  apiKey : Option Str
  deriving Repr

/-- Python truthiness of the `OPENAI_API_KEY` value: unset or empty is falsy. -/
def apiKeyTruthy : Option Str → Bool
  | none => false
  | some s => !s.isEmpty

/-- The validation error message rendered for a bad ticker. -/
def tickerError : Str :=
  "Please enter a valid U.S. stock ticker symbol (1-5 letters).".toList

/-- The default prediction shown when the OpenAI service is unavailable
or the call fails. -/
def defaultPrediction : Str :=
  ("The AI prediction service is currently unavailable. Ensure that the OpenAI library is installed and the OPENAI_API_KEY environment variable is set.").toList

/-- `str(days)` for the f-string interpolation. -/
def intRepr (n : Int) : Str := (toString n).toList

/-- The user prompt built by `predict` (the f-string at lines 97-104). -/
def userPrompt (ticker : Str) (days : Int) : Str :=
  "You are a helpful financial assistant. Provide a hypothetical price prediction for the U.S. stock ticker symbol \x27".toList
    ++ ticker
    ++ "\x27 ".toList
    ++ intRepr days
    ++ " days from today. Give the projected closing price down to the cent, followed by a brief commentary on why the price might move in that direction. This analysis is for educational purposes only and should not be taken as financial advice. Avoid providing any guarantees or promises about returns.".toList

/-- Line 79: `ticker = request.form.get("ticker", "").strip().upper()`. -/
def normalizeTicker (raw : Str) : Str :=
  pyUpper (pyStrip raw)

/-- Line 82: the ticker rejection condition
`not ticker or not ticker.isalpha() or len(ticker) > 5`. -/
def tickerInvalid (t : Str) : Bool :=
  t.isEmpty || !(pyIsAlpha t) || decide (t.length > 5)

/-- Lines 88-94: parse `days` and substitute 30 on any failure or
out-of-range value.  `raw` is the form value; line 80 strips it and
`int` is applied to the stripped string. -/
def effectiveDays (raw : Str) : Int :=
  match pyInt (pyStrip raw) with
  | some d => if d < 1 || 60 < d then 30 else d
  | none => 30

/-- `GET /` (lines 37-44): redirect to the main form when logged in,
else to the login view.  The session is not modified. -/
def home (s : Session) : Session × Response :=
  if isLoggedIn s then (s, .redirect "index")
  else (s, .redirect "login")

/-- `GET|POST /login` (lines 47-57).  A POST marks the session as logged
in — the request body `body` is never read — and redirects to the main
form; a GET renders the login template. -/
def login (m : Method) (_body : List (String × Str)) (s : Session) : Session × Response :=
  match m with
  | .POST => (sessionSet s "logged_in" true, .redirect "index")
  | .GET => (s, .renderLogin)

/-- `POST /logout` (lines 60-66): clear the session, redirect to login. -/
def logout (s : Session) : Session × Response :=
  (sessionClear s, .redirect "login")

/-- `GET /index`, `GET /main` (lines 137-145): the main form, gated on
the session flag. -/
def index (s : Session) : Session × Response :=
  if !(isLoggedIn s) then (s, .redirect "login")
  else (s, .renderIndex none [])

/-- `POST /predict` (lines 69-134).  `tf` and `df` are the optional
`ticker` and `days` form fields; `request.form.get(k, "")` yields `[]`
when the field is absent.  `apiCall` is the external OpenAI call,
mapping the user prompt to either the message content or an exception. -/
def predict (env : Env) (apiCall : Str → Except Unit Str) (s : Session)
    (tf df : Option Str) : Session × Response :=
  if !(isLoggedIn s) then (s, .redirect "login")
  else
    let ticker := normalizeTicker (tf.getD [])
    if tickerInvalid ticker then
      (s, .renderIndex (some tickerError) [])
    else
      let days := effectiveDays (df.getD [])
      let prediction : Str :=
        if env.openaiAvailable && apiKeyTruthy env.apiKey then
          match apiCall (userPrompt ticker days) with
          | .ok content => pyStrip content
          | .error _ => defaultPrediction
        else defaultPrediction
      (s, .renderResult ticker days prediction)

/-- The ticker pattern stated by the spec for claim C1: the string
matches `^[A-Za-z]{1,5}$`.  This definition follows the wording of the
spec, to be compared against the code path. -/
def specTickerOk (s : Str) : Bool :=
  decide (1 ≤ s.length) && decide (s.length ≤ 5) && s.all Char.isAlpha

/-! ## Helper lemmas -/

/-- The rejection condition on line 82 is exactly the negation of the
spec pattern `^[A-Za-z]{1,5}$` applied to the (already normalized) ticker. -/
theorem tickerInvalid_eq_not_specTickerOk (t : Str) :
    tickerInvalid t = !(specTickerOk t) := by
  cases t with
  | nil => rfl
  | cons c cs =>
    simp only [tickerInvalid, specTickerOk, pyIsAlpha, List.isEmpty_cons,
      List.length_cons, Bool.not_and, Bool.not_not, Bool.false_or,
      Bool.not_or]
    have h1 : decide (1 ≤ cs.length + 1) = true := by simp
    have h2 : decide (cs.length + 1 > 5) = !decide (cs.length + 1 ≤ 5) := by
      by_cases h : cs.length + 1 ≤ 5
      · simp [h]
      · simp [h]
        omega
    rw [h1, h2]
    cases decide (cs.length + 1 ≤ 5) <;>
      cases (c :: cs).all Char.isAlpha <;> rfl

/-- An unauthenticated predict request redirects to login. -/
theorem predict_unauth (env : Env) (api : Str → Except Unit Str)
    (s : Session) (tf df : Option Str) (h : isLoggedIn s = false) :
    predict env api s tf df = (s, .redirect "login") := by
  simp [predict, h]

/-- An authenticated predict request with an invalid normalized ticker
re-renders the form with the error message and an empty ticker. -/
theorem predict_invalid (env : Env) (api : Str → Except Unit Str)
    (s : Session) (tf df : Option Str) (h : isLoggedIn s = true)
    (hv : tickerInvalid (normalizeTicker (tf.getD [])) = true) :
    predict env api s tf df = (s, .renderIndex (some tickerError) []) := by
  simp [predict, h, hv]

/-- An authenticated predict request with a valid normalized ticker
renders the result page; the prediction is the external call's stripped
content when the service is configured, else the default message. -/
theorem predict_valid (env : Env) (api : Str → Except Unit Str)
    (s : Session) (tf df : Option Str) (h : isLoggedIn s = true)
    (hv : tickerInvalid (normalizeTicker (tf.getD [])) = false) :
    predict env api s tf df
      = (s, .renderResult (normalizeTicker (tf.getD []))
          (effectiveDays (df.getD []))
          (if env.openaiAvailable && apiKeyTruthy env.apiKey then
            match api (userPrompt (normalizeTicker (tf.getD []))
                (effectiveDays (df.getD []))) with
            | .ok content => pyStrip content
            | .error _ => defaultPrediction
          else defaultPrediction)) := by
  simp [predict, h, hv]

/-! ## Claims -/

/-- C1, counterexample: the submitted string `" aapl "` does not match
`^[A-Za-z]{1,5}$`, yet an authenticated predict request with this ticker
passes validation and proceeds to a rendered prediction, so validation
does not pass only for strings matching the pattern. -/
theorem c1_counterexample :
    specTickerOk " aapl ".toList = false ∧
    (predict ⟨false, none⟩ (fun _ => .error ()) [("logged_in", true)]
        (some " aapl ".toList) none).2
      = .renderResult "AAPL".toList 30 defaultPrediction := by
  constructor
  · decide
  · rfl

/-- C1 (amended): for an authenticated session, a predict request
proceeds to a rendered prediction if and only if the submitted ticker
string, after stripping surrounding whitespace and converting to upper
case, matches `^[A-Za-z]{1,5}$`; every other string fails validation. -/
theorem c1_ticker_validation (env : Env) (api : Str → Except Unit Str)
    (s : Session) (tf df : Option Str) (h : isLoggedIn s = true) :
    (∃ d p, (predict env api s tf df).2
        = .renderResult (normalizeTicker (tf.getD [])) d p)
      ↔ specTickerOk (normalizeTicker (tf.getD [])) = true := by
  constructor
  · rintro ⟨d, p, hdp⟩
    cases hsp : specTickerOk (normalizeTicker (tf.getD [])) with
    | true => rfl
    | false =>
      have hv : tickerInvalid (normalizeTicker (tf.getD [])) = true := by
        rw [tickerInvalid_eq_not_specTickerOk, hsp]
        rfl
      rw [predict_invalid env api s tf df h hv] at hdp
      exact absurd hdp (by simp)
  · intro hsp
    have hv : tickerInvalid (normalizeTicker (tf.getD [])) = false := by
      rw [tickerInvalid_eq_not_specTickerOk, hsp]
      rfl
    exact ⟨_, _, by rw [predict_valid env api s tf df h hv]⟩

/-- C1 witness: the amended equivalence at the concrete session
`logged_in = true` and ticker field `"aapl"`. -/
theorem c1_ticker_validation_witness :
    isLoggedIn [("logged_in", true)] = true ∧
    ((∃ d p, (predict ⟨false, none⟩ (fun _ => .error ())
          [("logged_in", true)] (some "aapl".toList) none).2
        = .renderResult (normalizeTicker ((some "aapl".toList).getD [])) d p)
      ↔ specTickerOk (normalizeTicker ((some "aapl".toList).getD [])) = true) :=
  ⟨by decide,
   c1_ticker_validation ⟨false, none⟩ (fun _ => .error ())
     [("logged_in", true)] (some "aapl".toList) none (by decide)⟩

/-- C2: on an authenticated predict request with a valid ticker, the day
count rendered in the result is `effectiveDays` of the `days` field, and
`effectiveDays` returns the parsed integer whenever it lies in `[1, 60]`
and exactly 30 on any out-of-range value or parse failure. -/
theorem c2_days_effective (env : Env) (api : Str → Except Unit Str)
    (s : Session) (tf df : Option Str) (h : isLoggedIn s = true)
    (hv : tickerInvalid (normalizeTicker (tf.getD [])) = false) :
    (∃ p, (predict env api s tf df).2
        = .renderResult (normalizeTicker (tf.getD []))
            (effectiveDays (df.getD [])) p)
    ∧ (∀ d : Int, pyInt (pyStrip (df.getD [])) = some d → 1 ≤ d → d ≤ 60 →
        effectiveDays (df.getD []) = d)
    ∧ (∀ d : Int, pyInt (pyStrip (df.getD [])) = some d → (d < 1 ∨ 60 < d) →
        effectiveDays (df.getD []) = 30)
    ∧ (pyInt (pyStrip (df.getD [])) = none → effectiveDays (df.getD []) = 30) := by
  refine ⟨⟨_, by rw [predict_valid env api s tf df h hv]⟩, ?_, ?_, ?_⟩
  · intro d hp h1 h60
    simp only [effectiveDays, hp]
    have hc : (decide (d < 1) || decide (60 < d)) = false := by
      simp
      omega
    rw [hc]
    rfl
  · intro d hp hout
    simp only [effectiveDays, hp]
    have hc : (decide (d < 1) || decide (60 < d)) = true := by
      simp
      omega
    rw [hc]
    rfl
  · intro hp
    simp only [effectiveDays, hp]

/-- C2 witness: the characterization at ticker `"AAPL"` and days `"10"`,
whose parse is 10 and effective day count is 10. -/
theorem c2_days_effective_witness :
    isLoggedIn [("logged_in", true)] = true ∧
    tickerInvalid (normalizeTicker ((some "AAPL".toList).getD [])) = false ∧
    pyInt (pyStrip ((some "10".toList).getD [])) = some 10 ∧
    ((∃ p, (predict ⟨false, none⟩ (fun _ => .error ())
          [("logged_in", true)] (some "AAPL".toList) (some "10".toList)).2
        = .renderResult (normalizeTicker ((some "AAPL".toList).getD []))
            (effectiveDays ((some "10".toList).getD [])) p)
    ∧ (∀ d : Int, pyInt (pyStrip ((some "10".toList).getD [])) = some d →
        1 ≤ d → d ≤ 60 → effectiveDays ((some "10".toList).getD []) = d)
    ∧ (∀ d : Int, pyInt (pyStrip ((some "10".toList).getD [])) = some d →
        (d < 1 ∨ 60 < d) → effectiveDays ((some "10".toList).getD []) = 30)
    ∧ (pyInt (pyStrip ((some "10".toList).getD [])) = none →
        effectiveDays ((some "10".toList).getD []) = 30)) :=
  ⟨by decide, by decide, by decide,
   c2_days_effective ⟨false, none⟩ (fun _ => .error ())
     [("logged_in", true)] (some "AAPL".toList) (some "10".toList)
     (by decide) (by decide)⟩

/-- C3: when the session does not hold `logged_in = true`, both the main
form and the predict action return a redirect to login with the session
unchanged, whatever the request payload. -/
theorem c3_unauthenticated_redirect (env : Env) (api : Str → Except Unit Str)
    (s : Session) (tf df : Option Str) (h : isLoggedIn s = false) :
    index s = (s, .redirect "login")
    ∧ predict env api s tf df = (s, .redirect "login") := by
  constructor
  · simp [index, h]
  · simp [predict, h]

/-- C3 witness: the redirects at the concrete session holding
`logged_in = false` and an otherwise valid payload. -/
theorem c3_unauthenticated_redirect_witness :
    isLoggedIn [("logged_in", false)] = false ∧
    (index [("logged_in", false)] = ([("logged_in", false)], .redirect "login")
    ∧ predict ⟨true, some "key".toList⟩ (fun _ => .ok "up".toList)
        [("logged_in", false)] (some "AAPL".toList) (some "10".toList)
      = ([("logged_in", false)], .redirect "login")) :=
  ⟨by decide,
   c3_unauthenticated_redirect ⟨true, some "key".toList⟩ (fun _ => .ok "up".toList)
     [("logged_in", false)] (some "AAPL".toList) (some "10".toList) (by decide)⟩

/-- C4: an authenticated predict request whose ticker fails validation
renders the main form in place with the validation error and an empty
ticker field — not a redirect. -/
theorem c4_invalid_ticker_rerender (env : Env) (api : Str → Except Unit Str)
    (s : Session) (tf df : Option Str) (h : isLoggedIn s = true)
    (hv : tickerInvalid (normalizeTicker (tf.getD [])) = true) :
    predict env api s tf df = (s, .renderIndex (some tickerError) []) :=
  predict_invalid env api s tf df h hv

/-- C4 witness: the error rendering at the concrete invalid ticker
`"ABC123"`. -/
theorem c4_invalid_ticker_rerender_witness :
    isLoggedIn [("logged_in", true)] = true ∧
    tickerInvalid (normalizeTicker ((some "ABC123".toList).getD [])) = true ∧
    predict ⟨true, some "key".toList⟩ (fun _ => .ok "up".toList)
        [("logged_in", true)] (some "ABC123".toList) (some "10".toList)
      = ([("logged_in", true)], .renderIndex (some tickerError) []) :=
  ⟨by decide, by decide,
   c4_invalid_ticker_rerender ⟨true, some "key".toList⟩ (fun _ => .ok "up".toList)
     [("logged_in", true)] (some "ABC123".toList) (some "10".toList)
     (by decide) (by decide)⟩

/-- C5: any POST to the login operation, whatever the payload and the
prior session, stores `logged_in = true` in the session and redirects to
the main form; the resulting session is authenticated. -/
theorem c5_login_post (body : List (String × Str)) (s : Session) :
    login .POST body s = (sessionSet s "logged_in" true, .redirect "index")
    ∧ isLoggedIn (login .POST body s).1 = true :=
  ⟨rfl, rfl⟩

/-- C6: logging out empties the session entirely and redirects to login,
and a main-form request on the resulting session redirects to login. -/
theorem c6_logout_clears (s : Session) :
    logout s = (([] : Session), .redirect "login")
    ∧ index (logout s).1 = (([] : Session), .redirect "login") :=
  ⟨rfl, rfl⟩

/-- C7: with the API credential absent from the environment, every
authenticated valid prediction renders the result page with the fixed
unavailability message, the normalized ticker and the effective day
count; the outcome is identical for every external-call function, so no
external call is observed. -/
theorem c7_no_key_fallback (b : Bool) (f g : Str → Except Unit Str)
    (s : Session) (tf df : Option Str) (h : isLoggedIn s = true)
    (hv : tickerInvalid (normalizeTicker (tf.getD [])) = false) :
    predict ⟨b, none⟩ f s tf df
      = (s, .renderResult (normalizeTicker (tf.getD []))
          (effectiveDays (df.getD [])) defaultPrediction)
    ∧ predict ⟨b, none⟩ f s tf df = predict ⟨b, none⟩ g s tf df := by
  have hf := predict_valid ⟨b, none⟩ f s tf df h hv
  have hg := predict_valid ⟨b, none⟩ g s tf df h hv
  simp only [apiKeyTruthy, Bool.and_false, if_false] at hf hg
  exact ⟨hf, hf.trans hg.symm⟩

/-- C7 witness: the fallback at the spec's example, ticker `"AAPL"` and
days `"10"`, echoed as `AAPL` and `10` in the result. -/
theorem c7_no_key_fallback_witness :
    isLoggedIn [("logged_in", true)] = true ∧
    tickerInvalid (normalizeTicker ((some "AAPL".toList).getD [])) = false ∧
    normalizeTicker ((some "AAPL".toList).getD []) = "AAPL".toList ∧
    effectiveDays ((some "10".toList).getD []) = 10 ∧
    (predict ⟨true, none⟩ (fun _ => .ok "up".toList)
        [("logged_in", true)] (some "AAPL".toList) (some "10".toList)
      = ([("logged_in", true)],
          .renderResult (normalizeTicker ((some "AAPL".toList).getD []))
            (effectiveDays ((some "10".toList).getD [])) defaultPrediction)
    ∧ predict ⟨true, none⟩ (fun _ => .ok "up".toList)
        [("logged_in", true)] (some "AAPL".toList) (some "10".toList)
      = predict ⟨true, none⟩ (fun _ => .error ())
        [("logged_in", true)] (some "AAPL".toList) (some "10".toList)) :=
  ⟨by decide, by decide, by decide, by decide,
   c7_no_key_fallback true (fun _ => .ok "up".toList) (fun _ => .error ())
     [("logged_in", true)] (some "AAPL".toList) (some "10".toList)
     (by decide) (by decide)⟩

/-- C8: when the external call raises on every prompt, an authenticated
valid prediction still renders the result page with the fixed fallback
message; the failure is never propagated. -/
theorem c8_api_error_fallback (env : Env) (f : Str → Except Unit Str)
    (s : Session) (tf df : Option Str)
    (hf : ∀ prompt, f prompt = Except.error ())
    (h : isLoggedIn s = true)
    (hv : tickerInvalid (normalizeTicker (tf.getD [])) = false) :
    predict env f s tf df
      = (s, .renderResult (normalizeTicker (tf.getD []))
          (effectiveDays (df.getD [])) defaultPrediction) := by
  rw [predict_valid env f s tf df h hv, hf]
  simp

/-- C8 witness: the fallback with the credential present and a failing
external call, at ticker `"AAPL"` and days `"10"`. -/
theorem c8_api_error_fallback_witness :
    isLoggedIn [("logged_in", true)] = true ∧
    tickerInvalid (normalizeTicker ((some "AAPL".toList).getD [])) = false ∧
    predict ⟨true, some "key".toList⟩ (fun _ => .error ())
        [("logged_in", true)] (some "AAPL".toList) (some "10".toList)
      = ([("logged_in", true)],
          .renderResult (normalizeTicker ((some "AAPL".toList).getD []))
            (effectiveDays ((some "10".toList).getD [])) defaultPrediction) :=
  ⟨by decide, by decide,
   c8_api_error_fallback ⟨true, some "key".toList⟩ (fun _ => .error ())
     [("logged_in", true)] (some "AAPL".toList) (some "10".toList)
     (fun _ => rfl) (by decide) (by decide)⟩

/-- C9: the Home operation leaves the session unchanged and redirects to
the main form when the session is authenticated, else to the login view. -/
theorem c9_home_redirect (s : Session) :
    home s = (s, .redirect (cond (isLoggedIn s) "index" "login")) := by
  cases h : isLoggedIn s <;> simp [home, h]

/-- C10: on every authenticated predict submission that passes
validation, the rendered result and the prompt handed to the external
call both carry the stripped, uppercased form of the submitted ticker,
and the result carries the effective day count. -/
theorem c10_normalized_ticker (env : Env) (api : Str → Except Unit Str)
    (s : Session) (tf df : Option Str) (h : isLoggedIn s = true)
    (hv : tickerInvalid (normalizeTicker (tf.getD [])) = false) :
    predict env api s tf df
      = (s, .renderResult (normalizeTicker (tf.getD []))
          (effectiveDays (df.getD []))
          (if env.openaiAvailable && apiKeyTruthy env.apiKey then
            match api (userPrompt (normalizeTicker (tf.getD []))
                (effectiveDays (df.getD []))) with
            | .ok content => pyStrip content
            | .error _ => defaultPrediction
          else defaultPrediction)) :=
  predict_valid env api s tf df h hv

/-- C10 witness: the submission `" aapl "` is accepted and echoed as
`AAPL` in the rendered result and in the prompt sent to the external
call. -/
theorem c10_normalized_ticker_witness :
    isLoggedIn [("logged_in", true)] = true ∧
    tickerInvalid (normalizeTicker ((some " aapl ".toList).getD [])) = false ∧
    normalizeTicker ((some " aapl ".toList).getD []) = "AAPL".toList ∧
    predict ⟨true, some "key".toList⟩ (fun p => .ok p)
        [("logged_in", true)] (some " aapl ".toList) (some "10".toList)
      = ([("logged_in", true)],
          .renderResult (normalizeTicker ((some " aapl ".toList).getD []))
            (effectiveDays ((some "10".toList).getD []))
            (pyStrip (userPrompt (normalizeTicker ((some " aapl ".toList).getD []))
              (effectiveDays ((some "10".toList).getD []))))) :=
  ⟨by decide, by decide, by decide,
   c10_normalized_ticker ⟨true, some "key".toList⟩ (fun p => .ok p)
     [("logged_in", true)] (some " aapl ".toList) (some "10".toList)
     (by decide) (by decide)⟩

end AnalystApp
